import Mathlib

/-!
Verification of the KabuTech recommendation rule engine
(src/kabutech_infer_recommend.py).

The engine is a pure function `recommend(pred_class, conf, env)` returning
a triple (severity, alerts, actions).  We embed it shallowly:

* Python floats appear only in order comparisons, so they are modelled as
  rationals.
* The environment dict is an association list; `env.get(key, None)` is
  `List.lookup key env` and `key in env` is `(List.lookup key env).isSome`.
* Alert strings carry interpolated values, so alerts are modelled as a
  structured type: `Alert.lowConfidence conf` stands for the Python string
  f"Low confidence (\x7bconf:.2f\x7d)." (the formatted value is abstracted as
  the exact rational), `Alert.outOfRange key v lo hi unit` stands for
  f"\x7bkey\x7d out of range: \x7bv\x7d\x7bunit\x7d (target \x7blo\x7d-\x7bhi\x7d\x7bunit\x7d)", and
  `Alert.substrateQualityPoor` for the fixed substrate-quality string.
  Action strings are fixed literals and are kept verbatim.
* The one operation inside `recommend` that can raise (`TARGETS[key]`, a
  KeyError when the key is absent) is modelled by returning `none`; the
  whole engine therefore has type `Option (RecResult × Env)`, where the
  returned environment models the state of the (read-only) dict argument
  after the call.
-/

/-- The severity dict of the source, in source order. -/
def SEVERITY : List (String × String) :=
  [("bacterial_blotch_disease", "moderate"),
   ("dry_bubble_disease", "moderate"),
   ("green_molds_disease", "high"),
   ("healthy_fruiting_bag", "none"),
   ("healthy_mushroom", "none")]

/-- The target-range dict of the source, in source order. -/
def TARGETS : List (String × (ℚ × ℚ)) :=
  [("temp_c", (20, 28)),
   ("humidity_rh", (85, 95)),
   ("light_lux", (50, 300)),
   ("substrate_moisture_pct", (55, 65))]

/-- The confidence gate constant CONF_THRESHOLD = 0.70. -/
def CONF_THRESHOLD : ℚ := 7/10

/-- An environment snapshot: the dict from metric names to numeric values. -/
abbrev Env := List (String × ℚ)

/-- Structured model of the alert strings emitted by the engine. -/
inductive Alert where
  | lowConfidence (conf : ℚ)
  | outOfRange (key : String) (v lo hi : ℚ) (unit : String)
  | substrateQualityPoor
deriving DecidableEq

/-- The triple (severity, alerts, actions) returned by recommend. -/
structure RecResult where
  severity : String
  alerts : List Alert
  actions : List String
deriving DecidableEq

/-- The inner helper check_range of the source.  `TARGETS[key]` raises a
KeyError when the key is missing, modelled by `none`; otherwise the function
returns the list of alerts it appends (empty when the metric is absent from
the snapshot or inside its target band). -/
def check_range (env : Env) (key : String) (unit : String) :
    Option (List Alert) :=
  match List.lookup key TARGETS with
  | none => none
  | some (lo, hi) =>
    match List.lookup key env with
    | none => some []
    | some v =>
      if v < lo ∨ v > hi then some [Alert.outOfRange key v lo hi unit]
      else some []

/-- The if/elif/else chain of disease-specific recommendations
(lines 62-84 of the source), factored as a function of the class. -/
def categoryActions (pred_class : String) : List String :=
  if pred_class = "green_molds_disease" then
    ["HIGH severity: isolate/remove contaminated bag immediately to prevent spread.",
     "Sterilize tools and nearby surfaces.",
     "Reduce overly-wet conditions; increase fresh-air exchange."]
  else if pred_class = "dry_bubble_disease" then
    ["MODERATE severity: isolate affected bag.",
     "Avoid direct misting on fruiting bodies; improve airflow.",
     "Sanitize handling area and tools."]
  else if pred_class = "bacterial_blotch_disease" then
    ["MODERATE severity: reduce surface moisture (avoid water droplets on caps).",
     "Increase ventilation; avoid overcrowding.",
     "Sanitize area to reduce bacterial spread."]
  else
    ["No disease detected: continue monitoring.",
     "Maintain chamber conditions within target ranges."]

/-- The optional substrate-quality heuristic (lines 86-90): the alerts and
actions it appends. -/
def substrate_quality (env : Env) : List Alert × List String :=
  match List.lookup "substrate_quality_score" env with
  | none => ([], [])
  | some q =>
    if q < 6/10 then
      ([Alert.substrateQualityPoor],
       ["Consider replacing/refreshing substrate and reviewing sterilization/pasteurization."])
    else ([], [])

/-- The rule engine recommend (lines 33-92).  Returns `none` exactly when a
KeyError would propagate; the second component of the pair is the state of
the env dict after the call. -/
def recommend (pred_class : String) (conf : ℚ) (env : Env) :
    Option (RecResult × Env) :=
  let severity := (List.lookup pred_class SEVERITY).getD "unknown"
  if conf < CONF_THRESHOLD then
    some (⟨severity,
      [Alert.lowConfidence conf],
      ["Retake photo with better focus and lighting; keep subject centered.",
       "If symptoms persist, isolate and monitor the bag/mushroom."]⟩, env)
  else
    (if (List.lookup "temp_c" env).isSome then
        check_range env "temp_c" "°C" else some []).bind fun a1 =>
    (if (List.lookup "humidity_rh" env).isSome then
        check_range env "humidity_rh" "%" else some []).bind fun a2 =>
    (if (List.lookup "light_lux" env).isSome then
        check_range env "light_lux" " lux" else some []).bind fun a3 =>
    (if (List.lookup "substrate_moisture_pct" env).isSome then
        check_range env "substrate_moisture_pct" "%" else some []).bind fun a4 =>
    some (⟨severity,
      a1 ++ a2 ++ a3 ++ a4 ++ (substrate_quality env).1,
      categoryActions pred_class ++ (substrate_quality env).2⟩, env)

/-- Closed form of the alerts contributed by one range check: a derived
definition used only to state the evaluation lemma below. -/
def rangeAlerts (env : Env) (key : String) (unit : String) (lo hi : ℚ) :
    List Alert :=
  match List.lookup key env with
  | none => []
  | some v =>
    if v < lo ∨ v > hi then [Alert.outOfRange key v lo hi unit] else []

/-- Closed form of recommend: a derived definition, proved equal to the
embedding of the source in recommend_eq_pure. -/
def recommendPure (pred_class : String) (conf : ℚ) (env : Env) : RecResult :=
  if conf < CONF_THRESHOLD then
    ⟨(List.lookup pred_class SEVERITY).getD "unknown",
     [Alert.lowConfidence conf],
     ["Retake photo with better focus and lighting; keep subject centered.",
      "If symptoms persist, isolate and monitor the bag/mushroom."]⟩
  else
    ⟨(List.lookup pred_class SEVERITY).getD "unknown",
     rangeAlerts env "temp_c" "°C" 20 28 ++
       rangeAlerts env "humidity_rh" "%" 85 95 ++
       rangeAlerts env "light_lux" " lux" 50 300 ++
       rangeAlerts env "substrate_moisture_pct" "%" 55 65 ++
       (substrate_quality env).1,
     categoryActions pred_class ++ (substrate_quality env).2⟩

theorem check_range_eq (env : Env) (key unit : String) (lo hi : ℚ)
    (ht : List.lookup key TARGETS = some (lo, hi)) :
    check_range env key unit = some (rangeAlerts env key unit lo hi) := by
  unfold check_range rangeAlerts
  rw [ht]
  rcases List.lookup key env with _ | v
  · rfl
  · dsimp only
    split <;> rfl

theorem gate_branch (env : Env) (key unit : String) (lo hi : ℚ)
    (ht : List.lookup key TARGETS = some (lo, hi)) :
    (if (List.lookup key env).isSome then check_range env key unit
      else some []) = some (rangeAlerts env key unit lo hi) := by
  rcases hv : List.lookup key env with _ | v
  · simp only [hv, Option.isSome_none, Bool.false_eq_true, if_false]
    unfold rangeAlerts
    rw [hv]
  · simp only [hv, Option.isSome_some, if_true]
    exact check_range_eq env key unit lo hi ht

theorem recommend_eq_pure (c : String) (conf : ℚ) (env : Env) :
    recommend c conf env = some (recommendPure c conf env, env) := by
  unfold recommend recommendPure
  by_cases hg : conf < CONF_THRESHOLD
  · simp only [hg, if_true]
  · simp only [hg, if_false]
    rw [gate_branch env "temp_c" "°C" 20 28 rfl,
        gate_branch env "humidity_rh" "%" 85 95 rfl,
        gate_branch env "light_lux" " lux" 50 300 rfl,
        gate_branch env "substrate_moisture_pct" "%" 55 65 rfl]
    rfl

theorem rangeAlerts_none (env : Env) (key unit : String) (lo hi : ℚ)
    (hv : List.lookup key env = none) :
    rangeAlerts env key unit lo hi = [] := by
  unfold rangeAlerts
  rw [hv]

theorem rangeAlerts_some (env : Env) (key unit : String) (lo hi v : ℚ)
    (hv : List.lookup key env = some v) :
    rangeAlerts env key unit lo hi =
      if v < lo ∨ v > hi then [Alert.outOfRange key v lo hi unit] else [] := by
  unfold rangeAlerts
  rw [hv]

theorem rangeAlerts_shape (env : Env) (key unit : String) (lo hi : ℚ)
    (a : Alert) (ha : a ∈ rangeAlerts env key unit lo hi) :
    ∃ v, a = Alert.outOfRange key v lo hi unit := by
  rcases hv : List.lookup key env with _ | v
  · rw [rangeAlerts_none env key unit lo hi hv] at ha
    simp at ha
  · rw [rangeAlerts_some env key unit lo hi v hv] at ha
    by_cases hc : v < lo ∨ v > hi
    · rw [if_pos hc] at ha
      simp only [List.mem_singleton] at ha
      exact ⟨v, ha⟩
    · rw [if_neg hc] at ha
      simp at ha

theorem rangeAlerts_nil_of_in_range (env : Env) (key unit : String) (lo hi : ℚ)
    (h : ∀ v : ℚ, List.lookup key env = some v → lo ≤ v ∧ v ≤ hi) :
    rangeAlerts env key unit lo hi = [] := by
  rcases hv : List.lookup key env with _ | v
  · exact rangeAlerts_none env key unit lo hi hv
  · rw [rangeAlerts_some env key unit lo hi v hv, if_neg]
    simp only [not_or, not_lt]
    exact ⟨(h v hv).1, (h v hv).2⟩

theorem rangeAlerts_congr (env1 env2 : Env) (key unit : String) (lo hi : ℚ)
    (h : List.lookup key env1 = List.lookup key env2) :
    rangeAlerts env1 key unit lo hi = rangeAlerts env2 key unit lo hi := by
  unfold rangeAlerts
  rw [h]

theorem substrate_quality_cases (env : Env) :
    substrate_quality env = ([], []) ∨
    substrate_quality env =
      ([Alert.substrateQualityPoor],
       ["Consider replacing/refreshing substrate and reviewing sterilization/pasteurization."]) := by
  unfold substrate_quality
  rcases List.lookup "substrate_quality_score" env with _ | q
  · exact Or.inl rfl
  · dsimp only
    split
    · exact Or.inr rfl
    · exact Or.inl rfl

theorem substrate_quality_nil (env : Env)
    (hq : ∀ q : ℚ, List.lookup "substrate_quality_score" env = some q → 6/10 ≤ q) :
    substrate_quality env = ([], []) := by
  unfold substrate_quality
  rcases hv : List.lookup "substrate_quality_score" env with _ | q
  · rfl
  · dsimp only
    rw [if_neg (not_lt.mpr (hq q hv))]

theorem substrate_quality_congr (env1 env2 : Env)
    (h : List.lookup "substrate_quality_score" env1 =
      List.lookup "substrate_quality_score" env2) :
    substrate_quality env1 = substrate_quality env2 := by
  unfold substrate_quality
  rw [h]

/-- C1: for every category, every environment snapshot and every confidence
strictly below the threshold, recommend short-circuits: the alerts are
exactly the one low-confidence alert carrying the confidence value, the
actions are exactly the two fixed retake-photo and isolate/monitor
instructions in that order, and no range-check alert, quality alert or
category-specific action appears. -/
theorem low_confidence_short_circuit (c : String) (conf : ℚ) (env : Env)
    (h : conf < CONF_THRESHOLD) :
    recommend c conf env = some
      (⟨(List.lookup c SEVERITY).getD "unknown",
        [Alert.lowConfidence conf],
        ["Retake photo with better focus and lighting; keep subject centered.",
         "If symptoms persist, isolate and monitor the bag/mushroom."]⟩, env) := by
  rw [recommend_eq_pure]
  unfold recommendPure
  rw [if_pos h]

theorem low_confidence_short_circuit_witness :
    (2/5 : ℚ) < CONF_THRESHOLD ∧
    recommend "healthy_mushroom" (2/5) [("temp_c", 35)] = some
      (⟨"none",
        [Alert.lowConfidence (2/5)],
        ["Retake photo with better focus and lighting; keep subject centered.",
         "If symptoms persist, isolate and monitor the bag/mushroom."]⟩,
       [("temp_c", 35)]) :=
  ⟨by norm_num [CONF_THRESHOLD],
   low_confidence_short_circuit "healthy_mushroom" (2/5) [("temp_c", 35)]
     (by norm_num [CONF_THRESHOLD])⟩

/-- C3: the severity component of the result always equals the SEVERITY
entry for the category when one exists and "unknown" otherwise, independent
of confidence and environment; in particular the low-confidence
short-circuit path returns the same severity value. -/
theorem severity_stable (c : String) (conf : ℚ) (env : Env) :
    (recommend c conf env).map (fun p => p.1.severity) =
      some ((List.lookup c SEVERITY).getD "unknown") := by
  rw [recommend_eq_pure]
  unfold recommendPure
  split <;> rfl

/-- C8: recommend is total: for every category string, every rational
confidence and every environment snapshot it returns a result (the KeyError
case, modelled by none, is unreachable). -/
theorem recommend_total (c : String) (conf : ℚ) (env : Env) :
    (recommend c conf env).isSome := by
  rw [recommend_eq_pure]
  rfl

/-- C9: recommend never mutates its environment-snapshot argument: the env
state it hands back is always exactly the env it was given. -/
theorem recommend_preserves_env (c : String) (conf : ℚ) (env : Env) :
    (recommend c conf env).map Prod.snd = some env := by
  rw [recommend_eq_pure]
  rfl

theorem mem_append_four {α : Type} {a : α} {l1 l2 l3 l4 : List α}
    (h : a ∈ l1 ++ l2 ++ l3 ++ l4) :
    a ∈ l1 ∨ a ∈ l2 ∨ a ∈ l3 ∨ a ∈ l4 := by
  simp only [List.mem_append] at h
  tauto

theorem mem_append_five {α : Type} {a : α} {l1 l2 l3 l4 l5 : List α}
    (h : a ∈ l1 ++ l2 ++ l3 ++ l4 ++ l5) :
    a ∈ l1 ∨ a ∈ l2 ∨ a ∈ l3 ∨ a ∈ l4 ∨ a ∈ l5 := by
  simp only [List.mem_append] at h
  tauto

/-- C2: for a tracked metric (one with an entry in TARGETS), check_range
produces exactly one alert naming that metric if and only if its value in
the snapshot is strictly below the lower bound or strictly above the upper
bound; a value equal to either bound produces no alert, and a metric absent
from the snapshot produces no alert. -/
theorem check_range_characterization (env : Env) (key unit : String)
    (lo hi : ℚ) (ht : List.lookup key TARGETS = some (lo, hi)) :
    (List.lookup key env = none → check_range env key unit = some []) ∧
    ∀ v : ℚ, List.lookup key env = some v →
      ((check_range env key unit =
          some [Alert.outOfRange key v lo hi unit]) ↔ (v < lo ∨ v > hi)) ∧
      (lo ≤ v → v ≤ hi → check_range env key unit = some []) := by
  refine ⟨fun h0 => ?_, fun v hv => ⟨?_, fun hl hh => ?_⟩⟩
  · rw [check_range_eq env key unit lo hi ht,
        rangeAlerts_none env key unit lo hi h0]
  · rw [check_range_eq env key unit lo hi ht,
        rangeAlerts_some env key unit lo hi v hv]
    by_cases hc : v < lo ∨ v > hi
    · simp [if_pos hc, hc]
    · simp [if_neg hc, hc]
  · rw [check_range_eq env key unit lo hi ht,
        rangeAlerts_some env key unit lo hi v hv, if_neg]
    simp only [not_or, not_lt]
    exact ⟨hl, hh⟩

theorem check_range_characterization_witness :
    List.lookup "temp_c" TARGETS = some (20, 28) ∧
    ((List.lookup "temp_c" [("temp_c", (30:ℚ))] = none →
        check_range [("temp_c", (30:ℚ))] "temp_c" "°C" = some []) ∧
     ∀ v : ℚ, List.lookup "temp_c" [("temp_c", (30:ℚ))] = some v →
       ((check_range [("temp_c", (30:ℚ))] "temp_c" "°C" =
           some [Alert.outOfRange "temp_c" v 20 28 "°C"]) ↔
         (v < 20 ∨ v > 28)) ∧
       (20 ≤ v → v ≤ 28 →
         check_range [("temp_c", (30:ℚ))] "temp_c" "°C" = some [])) :=
  ⟨rfl, check_range_characterization [("temp_c", (30:ℚ))] "temp_c" "°C" 20 28 rfl⟩

/-- C5: a confidence exactly equal to the threshold passes the confidence
gate: the result carries no low-confidence alert and its actions start with
the category-specific block, so the short-circuit fires only for confidence
strictly below the threshold. -/
theorem threshold_confidence_passes_gate (c : String) (env : Env)
    (r : RecResult) (e' : Env)
    (h : recommend c CONF_THRESHOLD env = some (r, e')) :
    (∀ q : ℚ, Alert.lowConfidence q ∉ r.alerts) ∧
    ∃ tail, r.actions = categoryActions c ++ tail := by
  rw [recommend_eq_pure] at h
  simp only [Option.some.injEq, Prod.mk.injEq] at h
  obtain ⟨hr, -⟩ := h
  subst hr
  unfold recommendPure
  rw [if_neg (lt_irrefl CONF_THRESHOLD)]
  refine ⟨fun q hq => ?_, ⟨(substrate_quality env).2, rfl⟩⟩
  rcases mem_append_five hq with h1|h1|h1|h1|h1
  · obtain ⟨v, hv⟩ := rangeAlerts_shape env _ _ _ _ _ h1
    exact Alert.noConfusion hv
  · obtain ⟨v, hv⟩ := rangeAlerts_shape env _ _ _ _ _ h1
    exact Alert.noConfusion hv
  · obtain ⟨v, hv⟩ := rangeAlerts_shape env _ _ _ _ _ h1
    exact Alert.noConfusion hv
  · obtain ⟨v, hv⟩ := rangeAlerts_shape env _ _ _ _ _ h1
    exact Alert.noConfusion hv
  · rcases substrate_quality_cases env with hs|hs <;> rw [hs] at h1 <;> simp at h1

theorem threshold_confidence_passes_gate_witness :
    recommend "green_molds_disease" CONF_THRESHOLD [] =
      some (⟨"high", [], categoryActions "green_molds_disease"⟩, []) ∧
    ((∀ q : ℚ, Alert.lowConfidence q ∉
        (⟨"high", [], categoryActions "green_molds_disease"⟩ : RecResult).alerts) ∧
     ∃ tail,
       (⟨"high", [], categoryActions "green_molds_disease"⟩ : RecResult).actions =
         categoryActions "green_molds_disease" ++ tail) := by
  have hrec : recommend "green_molds_disease" CONF_THRESHOLD [] =
      some (⟨"high", [], categoryActions "green_molds_disease"⟩, []) := by
    rw [recommend_eq_pure]
    norm_num [recommendPure, rangeAlerts, substrate_quality, CONF_THRESHOLD,
      SEVERITY, List.lookup]
    rfl
  exact ⟨hrec,
    threshold_confidence_passes_gate "green_molds_disease" []
      ⟨"high", [], categoryActions "green_molds_disease"⟩ [] hrec⟩

/-- C4: when the confidence gate passes, the result's actions start with the
block chosen by the category branch, and the four branches are mutually
exclusive and exhaustive: green molds, dry bubble and bacterial blotch each
select their fixed ordered block, and every other category (healthy states
and categories without a SEVERITY entry included) selects the generic
continue-monitoring block. -/
theorem category_branch_exclusive_exhaustive (c : String) (conf : ℚ)
    (env : Env) (r : RecResult) (e' : Env)
    (hc : CONF_THRESHOLD ≤ conf) (h : recommend c conf env = some (r, e')) :
    (∃ tail, r.actions = categoryActions c ++ tail) ∧
    ((c = "green_molds_disease" ∧ categoryActions c =
        ["HIGH severity: isolate/remove contaminated bag immediately to prevent spread.",
         "Sterilize tools and nearby surfaces.",
         "Reduce overly-wet conditions; increase fresh-air exchange."]) ∨
     (c ≠ "green_molds_disease" ∧ c = "dry_bubble_disease" ∧
      categoryActions c =
        ["MODERATE severity: isolate affected bag.",
         "Avoid direct misting on fruiting bodies; improve airflow.",
         "Sanitize handling area and tools."]) ∨
     (c ≠ "green_molds_disease" ∧ c ≠ "dry_bubble_disease" ∧
      c = "bacterial_blotch_disease" ∧ categoryActions c =
        ["MODERATE severity: reduce surface moisture (avoid water droplets on caps).",
         "Increase ventilation; avoid overcrowding.",
         "Sanitize area to reduce bacterial spread."]) ∨
     (c ≠ "green_molds_disease" ∧ c ≠ "dry_bubble_disease" ∧
      c ≠ "bacterial_blotch_disease" ∧ categoryActions c =
        ["No disease detected: continue monitoring.",
         "Maintain chamber conditions within target ranges."])) := by
  constructor
  · rw [recommend_eq_pure] at h
    simp only [Option.some.injEq, Prod.mk.injEq] at h
    obtain ⟨hr, -⟩ := h
    subst hr
    unfold recommendPure
    rw [if_neg (not_lt.mpr hc)]
    exact ⟨(substrate_quality env).2, rfl⟩
  · by_cases h1 : c = "green_molds_disease"
    · refine Or.inl ⟨h1, ?_⟩
      rw [h1]
      decide
    · by_cases h2 : c = "dry_bubble_disease"
      · refine Or.inr (Or.inl ⟨h1, h2, ?_⟩)
        rw [h2]
        decide
      · by_cases h3 : c = "bacterial_blotch_disease"
        · refine Or.inr (Or.inr (Or.inl ⟨h1, h2, h3, ?_⟩))
          rw [h3]
          decide
        · refine Or.inr (Or.inr (Or.inr ⟨h1, h2, h3, ?_⟩))
          unfold categoryActions
          rw [if_neg h1, if_neg h2, if_neg h3]

theorem category_branch_exclusive_exhaustive_witness :
    CONF_THRESHOLD ≤ (1 : ℚ) ∧
    recommend "healthy_fruiting_bag" 1 [] =
      some (⟨"none", [], categoryActions "healthy_fruiting_bag"⟩, []) ∧
    ((∃ tail,
        (⟨"none", [], categoryActions "healthy_fruiting_bag"⟩ : RecResult).actions =
          categoryActions "healthy_fruiting_bag" ++ tail) ∧
     (("healthy_fruiting_bag" = "green_molds_disease" ∧
        categoryActions "healthy_fruiting_bag" =
        ["HIGH severity: isolate/remove contaminated bag immediately to prevent spread.",
         "Sterilize tools and nearby surfaces.",
         "Reduce overly-wet conditions; increase fresh-air exchange."]) ∨
      ("healthy_fruiting_bag" ≠ "green_molds_disease" ∧
       "healthy_fruiting_bag" = "dry_bubble_disease" ∧
       categoryActions "healthy_fruiting_bag" =
        ["MODERATE severity: isolate affected bag.",
         "Avoid direct misting on fruiting bodies; improve airflow.",
         "Sanitize handling area and tools."]) ∨
      ("healthy_fruiting_bag" ≠ "green_molds_disease" ∧
       "healthy_fruiting_bag" ≠ "dry_bubble_disease" ∧
       "healthy_fruiting_bag" = "bacterial_blotch_disease" ∧
       categoryActions "healthy_fruiting_bag" =
        ["MODERATE severity: reduce surface moisture (avoid water droplets on caps).",
         "Increase ventilation; avoid overcrowding.",
         "Sanitize area to reduce bacterial spread."]) ∨
      ("healthy_fruiting_bag" ≠ "green_molds_disease" ∧
       "healthy_fruiting_bag" ≠ "dry_bubble_disease" ∧
       "healthy_fruiting_bag" ≠ "bacterial_blotch_disease" ∧
       categoryActions "healthy_fruiting_bag" =
        ["No disease detected: continue monitoring.",
         "Maintain chamber conditions within target ranges."]))) := by
  have hc : CONF_THRESHOLD ≤ (1 : ℚ) := by norm_num [CONF_THRESHOLD]
  have hrec : recommend "healthy_fruiting_bag" 1 [] =
      some (⟨"none", [], categoryActions "healthy_fruiting_bag"⟩, []) := by
    rw [recommend_eq_pure]
    norm_num [recommendPure, rangeAlerts, substrate_quality, CONF_THRESHOLD,
      SEVERITY, List.lookup]
    rfl
  exact ⟨hc, hrec,
    category_branch_exclusive_exhaustive "healthy_fruiting_bag" 1 []
      ⟨"none", [], categoryActions "healthy_fruiting_bag"⟩ [] hc hrec⟩

/-- C6: when the gate passes, every tracked metric present in the snapshot
lies inside its target band, and the substrate quality score is absent or
at least 0.6, the result has an empty alerts list and its actions are
exactly the category-specific block. -/
theorem nominal_environment_clean (c : String) (conf : ℚ) (env : Env)
    (hc : CONF_THRESHOLD ≤ conf)
    (ht : ∀ v : ℚ, List.lookup "temp_c" env = some v → 20 ≤ v ∧ v ≤ 28)
    (hh : ∀ v : ℚ, List.lookup "humidity_rh" env = some v → 85 ≤ v ∧ v ≤ 95)
    (hl : ∀ v : ℚ, List.lookup "light_lux" env = some v → 50 ≤ v ∧ v ≤ 300)
    (hm : ∀ v : ℚ,
      List.lookup "substrate_moisture_pct" env = some v → 55 ≤ v ∧ v ≤ 65)
    (hq : ∀ q : ℚ,
      List.lookup "substrate_quality_score" env = some q → 6/10 ≤ q) :
    recommend c conf env = some
      (⟨(List.lookup c SEVERITY).getD "unknown", [], categoryActions c⟩,
       env) := by
  rw [recommend_eq_pure]
  unfold recommendPure
  rw [if_neg (not_lt.mpr hc),
      rangeAlerts_nil_of_in_range env "temp_c" "°C" 20 28 ht,
      rangeAlerts_nil_of_in_range env "humidity_rh" "%" 85 95 hh,
      rangeAlerts_nil_of_in_range env "light_lux" " lux" 50 300 hl,
      rangeAlerts_nil_of_in_range env "substrate_moisture_pct" "%" 55 65 hm,
      substrate_quality_nil env hq]
  simp

theorem nominal_environment_clean_witness :
    CONF_THRESHOLD ≤ (4/5 : ℚ) ∧
    recommend "dry_bubble_disease" (4/5)
      [("humidity_rh", 90), ("substrate_quality_score", 7/10)] =
      some (⟨"moderate", [], categoryActions "dry_bubble_disease"⟩,
        [("humidity_rh", 90), ("substrate_quality_score", 7/10)]) := by
  have hc : CONF_THRESHOLD ≤ (4/5 : ℚ) := by norm_num [CONF_THRESHOLD]
  refine ⟨hc, ?_⟩
  have hmain := nominal_environment_clean "dry_bubble_disease" (4/5)
    [("humidity_rh", 90), ("substrate_quality_score", 7/10)] hc
    (fun v hv => Option.noConfusion hv)
    (fun v hv => by
      have hv' : some (90:ℚ) = some v := hv
      injection hv' with h
      subst h
      norm_num)
    (fun v hv => Option.noConfusion hv)
    (fun v hv => Option.noConfusion hv)
    (fun q hqv => by
      have hq' : some ((7:ℚ)/10) = some q := hqv
      injection hq' with h
      subst h
      norm_num)
  exact hmain

/-- C7: on the non-short-circuit path, alerts and actions appear in
generation order: the alerts list is the range-check alerts followed by the
optional substrate-quality alert, and the actions list is the
category-specific block followed by the optional substrate-replacement
action. -/
theorem result_generation_order (c : String) (conf : ℚ) (env : Env)
    (r : RecResult) (e' : Env)
    (hc : CONF_THRESHOLD ≤ conf) (h : recommend c conf env = some (r, e')) :
    ∃ ra qa qact,
      r.alerts = ra ++ qa ∧
      (∀ a ∈ ra, ∃ k v lo hi u, a = Alert.outOfRange k v lo hi u) ∧
      (qa = [] ∨ qa = [Alert.substrateQualityPoor]) ∧
      r.actions = categoryActions c ++ qact ∧
      (qact = [] ∨ qact =
        ["Consider replacing/refreshing substrate and reviewing sterilization/pasteurization."]) := by
  rw [recommend_eq_pure] at h
  simp only [Option.some.injEq, Prod.mk.injEq] at h
  obtain ⟨hr, -⟩ := h
  subst hr
  unfold recommendPure
  rw [if_neg (not_lt.mpr hc)]
  refine ⟨rangeAlerts env "temp_c" "°C" 20 28 ++
      rangeAlerts env "humidity_rh" "%" 85 95 ++
      rangeAlerts env "light_lux" " lux" 50 300 ++
      rangeAlerts env "substrate_moisture_pct" "%" 55 65,
    (substrate_quality env).1, (substrate_quality env).2, ?_, ?_, ?_, rfl, ?_⟩
  · simp [List.append_assoc]
  · intro a ha
    rcases mem_append_four ha with h1|h1|h1|h1 <;>
      (obtain ⟨v, hv⟩ := rangeAlerts_shape env _ _ _ _ _ h1
       exact ⟨_, v, _, _, _, hv⟩)
  · rcases substrate_quality_cases env with hs|hs <;> rw [hs]
    · exact Or.inl rfl
    · exact Or.inr rfl
  · rcases substrate_quality_cases env with hs|hs <;> rw [hs]
    · exact Or.inl rfl
    · exact Or.inr rfl

theorem result_generation_order_witness :
    CONF_THRESHOLD ≤ (4/5 : ℚ) ∧
    recommend "bacterial_blotch_disease" (4/5)
      [("temp_c", 35), ("substrate_quality_score", 2/5)] =
      some (⟨"moderate",
        [Alert.outOfRange "temp_c" 35 20 28 "°C", Alert.substrateQualityPoor],
        categoryActions "bacterial_blotch_disease" ++
          ["Consider replacing/refreshing substrate and reviewing sterilization/pasteurization."]⟩,
       [("temp_c", 35), ("substrate_quality_score", 2/5)]) ∧
    (∃ ra qa qact,
      (⟨"moderate",
        [Alert.outOfRange "temp_c" 35 20 28 "°C", Alert.substrateQualityPoor],
        categoryActions "bacterial_blotch_disease" ++
          ["Consider replacing/refreshing substrate and reviewing sterilization/pasteurization."]⟩ :
        RecResult).alerts = ra ++ qa ∧
      (∀ a ∈ ra, ∃ k v lo hi u, a = Alert.outOfRange k v lo hi u) ∧
      (qa = [] ∨ qa = [Alert.substrateQualityPoor]) ∧
      (⟨"moderate",
        [Alert.outOfRange "temp_c" 35 20 28 "°C", Alert.substrateQualityPoor],
        categoryActions "bacterial_blotch_disease" ++
          ["Consider replacing/refreshing substrate and reviewing sterilization/pasteurization."]⟩ :
        RecResult).actions = categoryActions "bacterial_blotch_disease" ++ qact ∧
      (qact = [] ∨ qact =
        ["Consider replacing/refreshing substrate and reviewing sterilization/pasteurization."])) := by
  have hc : CONF_THRESHOLD ≤ (4/5 : ℚ) := by norm_num [CONF_THRESHOLD]
  have hrec : recommend "bacterial_blotch_disease" (4/5)
      [("temp_c", 35), ("substrate_quality_score", 2/5)] =
      some (⟨"moderate",
        [Alert.outOfRange "temp_c" 35 20 28 "°C", Alert.substrateQualityPoor],
        categoryActions "bacterial_blotch_disease" ++
          ["Consider replacing/refreshing substrate and reviewing sterilization/pasteurization."]⟩,
       [("temp_c", 35), ("substrate_quality_score", 2/5)]) := by
    have hsq : substrate_quality
        [("temp_c", (35:ℚ)), ("substrate_quality_score", 2/5)] =
        ([Alert.substrateQualityPoor],
         ["Consider replacing/refreshing substrate and reviewing sterilization/pasteurization."]) := by
      unfold substrate_quality
      show (if (2:ℚ)/5 < 6/10 then
          (([Alert.substrateQualityPoor],
            ["Consider replacing/refreshing substrate and reviewing sterilization/pasteurization."]) :
            List Alert × List String)
        else ([], [])) = _
      rw [if_pos (by norm_num : (2:ℚ)/5 < 6/10)]
    rw [recommend_eq_pure]
    unfold recommendPure
    rw [if_neg (by norm_num [CONF_THRESHOLD] : ¬((4:ℚ)/5 < CONF_THRESHOLD)),
        rangeAlerts_some [("temp_c", (35:ℚ)), ("substrate_quality_score", 2/5)]
          "temp_c" "°C" 20 28 35 rfl,
        if_pos (show (35:ℚ) < 20 ∨ (35:ℚ) > 28 by norm_num),
        rangeAlerts_none [("temp_c", (35:ℚ)), ("substrate_quality_score", 2/5)]
          "humidity_rh" "%" 85 95 rfl,
        rangeAlerts_none [("temp_c", (35:ℚ)), ("substrate_quality_score", 2/5)]
          "light_lux" " lux" 50 300 rfl,
        rangeAlerts_none [("temp_c", (35:ℚ)), ("substrate_quality_score", 2/5)]
          "substrate_moisture_pct" "%" 55 65 rfl,
        hsq]
    rfl
  exact ⟨hc, hrec,
    result_generation_order "bacterial_blotch_disease" (4/5)
      [("temp_c", 35), ("substrate_quality_score", 2/5)]
      ⟨"moderate",
        [Alert.outOfRange "temp_c" 35 20 28 "°C", Alert.substrateQualityPoor],
        categoryActions "bacterial_blotch_disease" ++
          ["Consider replacing/refreshing substrate and reviewing sterilization/pasteurization."]⟩
      [("temp_c", 35), ("substrate_quality_score", 2/5)] hc hrec⟩

/-- C10: the result of recommend depends only on the five recognized
environment keys: two snapshots whose lookups agree on temp_c, humidity_rh,
light_lux, substrate_moisture_pct and substrate_quality_score yield the
same result, whatever other keys they hold. -/
theorem recommend_depends_only_on_tracked_keys (c : String) (conf : ℚ)
    (env1 env2 : Env)
    (h1 : List.lookup "temp_c" env1 = List.lookup "temp_c" env2)
    (h2 : List.lookup "humidity_rh" env1 = List.lookup "humidity_rh" env2)
    (h3 : List.lookup "light_lux" env1 = List.lookup "light_lux" env2)
    (h4 : List.lookup "substrate_moisture_pct" env1 =
      List.lookup "substrate_moisture_pct" env2)
    (h5 : List.lookup "substrate_quality_score" env1 =
      List.lookup "substrate_quality_score" env2) :
    (recommend c conf env1).map Prod.fst =
      (recommend c conf env2).map Prod.fst := by
  rw [recommend_eq_pure, recommend_eq_pure]
  show some (recommendPure c conf env1) = some (recommendPure c conf env2)
  congr 1
  unfold recommendPure
  rw [rangeAlerts_congr env1 env2 "temp_c" "°C" 20 28 h1,
      rangeAlerts_congr env1 env2 "humidity_rh" "%" 85 95 h2,
      rangeAlerts_congr env1 env2 "light_lux" " lux" 50 300 h3,
      rangeAlerts_congr env1 env2 "substrate_moisture_pct" "%" 55 65 h4,
      substrate_quality_congr env1 env2 h5]

theorem recommend_depends_only_on_tracked_keys_witness :
    List.lookup "temp_c" [("temp_c", (25:ℚ))] =
      List.lookup "temp_c" [("temp_c", (25:ℚ)), ("fan_speed_rpm", 900)] ∧
    List.lookup "humidity_rh" [("temp_c", (25:ℚ))] =
      List.lookup "humidity_rh" [("temp_c", (25:ℚ)), ("fan_speed_rpm", 900)] ∧
    List.lookup "light_lux" [("temp_c", (25:ℚ))] =
      List.lookup "light_lux" [("temp_c", (25:ℚ)), ("fan_speed_rpm", 900)] ∧
    List.lookup "substrate_moisture_pct" [("temp_c", (25:ℚ))] =
      List.lookup "substrate_moisture_pct"
        [("temp_c", (25:ℚ)), ("fan_speed_rpm", 900)] ∧
    List.lookup "substrate_quality_score" [("temp_c", (25:ℚ))] =
      List.lookup "substrate_quality_score"
        [("temp_c", (25:ℚ)), ("fan_speed_rpm", 900)] ∧
    (recommend "healthy_mushroom" 1 [("temp_c", (25:ℚ))]).map Prod.fst =
      (recommend "healthy_mushroom" 1
        [("temp_c", (25:ℚ)), ("fan_speed_rpm", 900)]).map Prod.fst :=
  ⟨rfl, rfl, rfl, rfl, rfl,
   recommend_depends_only_on_tracked_keys "healthy_mushroom" 1
     [("temp_c", (25:ℚ))] [("temp_c", (25:ℚ)), ("fan_speed_rpm", 900)]
     rfl rfl rfl rfl rfl⟩
